import Mathlib

/-!
Verification of the GUDOAI orchestrator (gudoai_core.py, gudoai_api_client.py,
gudoai_cli.py) against its specification.

The repository is a single-threaded command-line tool.  Its state is:
a per-project metadata JSON record (gudoai_meta.json), and the mock registry
store (.gudoai_api_db.json), a JSON object mapping project ids to registry
records.  External effects (git subprocess calls) are modelled by passing the
subprocess results (return code, stdout, stderr) as explicit inputs, and file
persistence is modelled by threading the stores through each operation.
-/

namespace Gudoai

/-- Local project metadata, the content of gudoai_meta.json
(gudoai_core.py, created by GudoaiCore._create_gudoai_meta). -/
structure ProjectMetadata where
  project_id : String
  version : Int
  description : String
  last_api_sync_commit_hash : Option String
  api_registered : Bool
  deriving Repr, DecidableEq

/-- One entry of the mock registry store (the record built by
GudoaiApiClient.register_project and updated by GudoaiApiClient.sync_project). -/
structure RegistryRecord where
  project_id : String
  project_name : String
  commit_hash : String
  version : Int
  description : String
  file_manifest : List String
  last_synced_commit : Option String
  is_deployed : Bool
  deriving Repr, DecidableEq

/-- The registry store (the JSON object persisted in .gudoai_api_db.json,
held in GudoaiApiClient.projects): a finite map from project id to record,
modelled as an association list in insertion order, as a Python dict is. -/
abbrev Db := List (String × RegistryRecord)

/-- Dict lookup: the value at a key, or none when the key is absent
(Python: self.projects[project_id] guarded by the membership test). -/
def Db.find : Db → String → Option RegistryRecord
  | [], _ => none
  | (k, r) :: rest, pid => if k = pid then some r else Db.find rest pid

/-- Dict update at an existing key (Python: self.projects[project_id].update(...)
mutates the value in place, keeping the insertion position). -/
def Db.set : Db → String → RegistryRecord → Db
  | [], _, _ => []
  | (k, r) :: rest, pid, r' =>
      if k = pid then (k, r') :: Db.set rest pid r' else (k, r) :: Db.set rest pid r'

/-- The JSON payload part of an API response (the dict that each
GudoaiApiClient method returns next to the status code). -/
inductive ApiPayload where
  /-- An error payload: a dict with a single "error" key. -/
  | apiError (error : String)
  /-- Success payload of register_project: "message" and "registry_id" keys. -/
  | registered (message registry_id : String)
  /-- Success payload of sync_project: "message" and "last_synced_commit" keys. -/
  | synced (message last_synced_commit : String)
  /-- Success payload of get_project_status: the full registry record. -/
  | statusRecord (record : RegistryRecord)
  deriving Repr, DecidableEq

/-- Result of a mutating API call: the (status, payload) pair the Python
method returns, together with the store after the call (the Python method
mutates self.projects and persists it with _save_projects). -/
structure ApiResult where
  status : Nat
  payload : ApiPayload
  projects : Db
  deriving Repr, DecidableEq

namespace GudoaiApiClient

/-- GudoaiApiClient.register_project: 409 when the id is already present
(store untouched); otherwise insert a fresh record and return 201. -/
def register_project (projects : Db) (project_id project_name commit_hash : String)
    (version : Int) (description : String) : ApiResult :=
  match Db.find projects project_id with
  | some _ =>
      { status := 409, payload := .apiError "Project ID already registered",
        projects := projects }
  | none =>
      { status := 201,
        payload := .registered "Project registered" project_id,
        projects := projects ++ [(project_id,
          { project_id := project_id, project_name := project_name,
            commit_hash := commit_hash, version := version,
            description := description, file_manifest := [],
            last_synced_commit := none, is_deployed := false })] }

/-- GudoaiApiClient.sync_project: 404 when the id is absent, 400 when the
given version is not strictly greater than the stored one (store untouched
in both cases); otherwise overwrite commit hash, version, description and
file manifest, set last_synced_commit, and return 200. -/
def sync_project (projects : Db) (project_id commit_hash : String) (version : Int)
    (description : String) (file_manifest : List String) : ApiResult :=
  match Db.find projects project_id with
  | none =>
      { status := 404, payload := .apiError "Project not found", projects := projects }
  | some record =>
      if version ≤ record.version then
        { status := 400,
          payload := .apiError "Stale data: metadata_version must be greater than current.",
          projects := projects }
      else
        let updated : RegistryRecord :=
          { record with
            commit_hash := commit_hash
            version := version
            description := description
            file_manifest := file_manifest
            last_synced_commit := some commit_hash }
        { status := 200,
          payload := .synced "Project state synchronized" commit_hash,
          projects := Db.set projects project_id updated }

/-- GudoaiApiClient.get_project_status: 404 when absent, otherwise the full
record with 200.  This call never mutates the store. -/
def get_project_status (projects : Db) (project_id : String) : Nat × ApiPayload :=
  match Db.find projects project_id with
  | none => (404, .apiError "Project not found")
  | some record => (200, .statusRecord record)

end GudoaiApiClient

/-- Python str.strip() with no argument: remove leading and trailing
whitespace characters. -/
def pyStrip (s : String) : String :=
  String.mk ((s.data.dropWhile Char.isWhitespace).reverse.dropWhile Char.isWhitespace).reverse

/-- Python str.split(sep) for a one-character separator, on the character
list: splitting an empty string yields one empty piece, never no pieces. -/
def pySplitChar (sep : Char) : List Char → List (List Char)
  | [] => [[]]
  | c :: cs =>
      if c = sep then [] :: pySplitChar sep cs
      else match pySplitChar sep cs with
        | [] => [[c]]
        | p :: ps => (c :: p) :: ps

/-- Python str.split(sep) for a one-character separator. -/
def pySplit (s : String) (sep : Char) : List String :=
  (pySplitChar sep s.data).map String.mk

/-- The observable outcome of one subprocess.run call: return code and the
captured stdout and stderr texts. -/
structure SubprocessResult where
  returncode : Int
  stdout : String
  stderr : String
  deriving Repr, DecidableEq

/-- One call made to the API client, with the exact arguments passed. -/
inductive RegistryCall where
  | register (project_id project_name commit_hash : String)
      (version : Int) (description : String)
  | sync (project_id commit_hash : String) (version : Int)
      (description : String) (file_manifest : List String)
  deriving Repr, DecidableEq

/-- Outcome of one orchestrator command that may touch gudoai_meta.json and
the registry: whether it returned normally or raised (result), the content
of gudoai_meta.json after the call (meta), the registry store after the call
(db), the API calls it made in order (apiCalls), and whether it rewrote and
git-committed gudoai_meta.json (metaWritten). -/
structure CoreOutcome where
  result : Except String Unit
  meta : ProjectMetadata
  db : Db
  apiCalls : List RegistryCall
  metaWritten : Bool
  deriving Repr

namespace GudoaiCore

/-- GudoaiCore.update_metadata on a metadata record that parsed: set the
description, increment the version by one.  (The rewrite of the file and the
git commit always follow; the record returned is what is persisted.) -/
def update_metadata (meta : ProjectMetadata) (new_description : String) :
    ProjectMetadata :=
  { meta with description := new_description, version := meta.version + 1 }

/-- GudoaiCore.merge_to_main, given the results of the two subprocess calls
(git checkout master, then git merge): raises RuntimeError when the checkout
fails, returns False when the merge fails, True when it succeeds. -/
def merge_to_main (checkoutResult mergeResult : SubprocessResult) :
    Except String Bool :=
  if checkoutResult.returncode ≠ 0 then
    .error ("Failed to switch to main branch: " ++ checkoutResult.stderr)
  else if mergeResult.returncode ≠ 0 then
    .ok false
  else
    .ok true

/-- GudoaiCore._get_current_commit_hash, given the result of
git rev-parse HEAD: raises RuntimeError on non-zero exit, otherwise the
stripped stdout. -/
def get_current_commit_hash (result : SubprocessResult) : Except String String :=
  if result.returncode ≠ 0 then
    .error ("Failed to get commit hash: " ++ result.stderr)
  else
    .ok (pyStrip result.stdout)

/-- GudoaiCore._get_tracked_files, given the result of git ls-files: raises
RuntimeError on non-zero exit, otherwise the stripped stdout split on
newlines (Python str.split with an explicit separator, which yields one
empty-string element on empty input, never the empty list). -/
def get_tracked_files (result : SubprocessResult) : Except String (List String) :=
  if result.returncode ≠ 0 then
    .error ("Failed to get tracked files: " ++ result.stderr)
  else
    .ok (pySplit (pyStrip result.stdout) (Char.ofNat 10))

/-- GudoaiCore.register_project on a metadata record that parsed, given the
project name, the result of git rev-parse HEAD, and the registry store:
raises ValueError when already registered (before any subprocess or API
call); propagates the RuntimeError of a failed rev-parse; otherwise calls
the API client, and only on a 201 status sets api_registered, records the
sent commit hash, increments the version, and rewrites and commits
gudoai_meta.json.  On any other status the metadata is left untouched. -/
def register_project (meta : ProjectMetadata) (project_name : String)
    (revParse : SubprocessResult) (db : Db) : CoreOutcome :=
  if meta.api_registered then
    { result := .error "Project already registered with the API.",
      meta := meta, db := db, apiCalls := [], metaWritten := false }
  else
    match get_current_commit_hash revParse with
    | .error e =>
        { result := .error e, meta := meta, db := db, apiCalls := [],
          metaWritten := false }
    | .ok commit_hash =>
        let r := GudoaiApiClient.register_project db meta.project_id project_name
          commit_hash meta.version meta.description
        let call := RegistryCall.register meta.project_id project_name commit_hash
          meta.version meta.description
        let newMeta : ProjectMetadata :=
          { meta with
            api_registered := true
            last_api_sync_commit_hash := some commit_hash
            version := meta.version + 1 }
        if r.status = 201 then
          { result := .ok (), meta := newMeta, db := r.projects,
            apiCalls := [call], metaWritten := true }
        else
          { result := .ok (), meta := meta, db := r.projects, apiCalls := [call],
            metaWritten := false }

/-- GudoaiCore.sync_project on a metadata record that parsed, given the
results of git rev-parse HEAD and git ls-files, and the registry store:
raises ValueError when not registered; propagates the RuntimeError of a
failed rev-parse or ls-files; otherwise calls the API client with the local
version and tracked files, and only on a 200 status records the sent commit
hash and rewrites and commits gudoai_meta.json.  On any other status the
metadata is left untouched. -/
def sync_project (meta : ProjectMetadata) (revParse lsFiles : SubprocessResult)
    (db : Db) : CoreOutcome :=
  if ¬ meta.api_registered then
    { result := .error "Project not registered with the API.",
      meta := meta, db := db, apiCalls := [], metaWritten := false }
  else
    match get_current_commit_hash revParse with
    | .error e =>
        { result := .error e, meta := meta, db := db, apiCalls := [],
          metaWritten := false }
    | .ok commit_hash =>
        match get_tracked_files lsFiles with
        | .error e =>
            { result := .error e, meta := meta, db := db, apiCalls := [],
              metaWritten := false }
        | .ok files =>
            let r := GudoaiApiClient.sync_project db meta.project_id commit_hash
              meta.version meta.description files
            let call := RegistryCall.sync meta.project_id commit_hash meta.version
              meta.description files
            if r.status = 200 then
              { result := .ok (),
                meta := { meta with last_api_sync_commit_hash := some commit_hash },
                db := r.projects, apiCalls := [call], metaWritten := true }
            else
              { result := .ok (), meta := meta, db := r.projects,
                apiCalls := [call], metaWritten := false }

end GudoaiCore

/-! Sample concrete values used by the witness theorems. -/

/-- A sample registry record for concrete evaluations. -/
def sampleRecord : RegistryRecord :=
  { project_id := "pid-1"
    project_name := "demo"
    commit_hash := "abc123"
    version := 5
    description := "a demo project"
    file_manifest := ["gudoai_meta.json"]
    last_synced_commit := none
    is_deployed := false }

/-- A sample local metadata record (not yet registered) for concrete
evaluations. -/
def sampleMeta : ProjectMetadata :=
  { project_id := "pid-1"
    version := 3
    description := "a demo project"
    last_api_sync_commit_hash := none
    api_registered := false }

/-- The sample metadata after registration (api_registered set). -/
def sampleMetaReg : ProjectMetadata :=
  { sampleMeta with api_registered := true }

/-- A successful git subprocess result whose stdout is a commit hash. -/
def sampleRevParse : SubprocessResult :=
  { returncode := 0, stdout := "abc123", stderr := "" }

/-- A successful git ls-files subprocess result with empty output. -/
def sampleLsEmpty : SubprocessResult :=
  { returncode := 0, stdout := "", stderr := "" }

/-! Helper lemmas about the store. -/

theorem Db.find_append (db : Db) (pid : String) (r : RegistryRecord)
    (h : Db.find db pid = none) : Db.find (db ++ [(pid, r)]) pid = some r := by
  induction db with
  | nil => simp [Db.find]
  | cons e rest ih =>
      obtain ⟨k, v⟩ := e
      by_cases hk : k = pid
      · rw [Db.find, if_pos hk] at h
        exact absurd h (by simp)
      · rw [Db.find, if_neg hk] at h
        rw [List.cons_append, Db.find, if_neg hk]
        exact ih h

theorem Db.find_set (db : Db) (pid : String) (r r' : RegistryRecord)
    (h : Db.find db pid = some r) : Db.find (Db.set db pid r') pid = some r' := by
  induction db with
  | nil => simp [Db.find] at h
  | cons e rest ih =>
      obtain ⟨k, v⟩ := e
      by_cases hk : k = pid
      · rw [Db.set, if_pos hk, Db.find, if_pos hk]
      · rw [Db.find, if_neg hk] at h
        rw [Db.set, if_neg hk, Db.find, if_neg hk]
        exact ih h

/-! Characterization lemmas: one equation per control-flow branch of the
orchestrator commands. -/

theorem GudoaiCore.get_current_commit_hash_ok {r : SubprocessResult}
    (h : r.returncode = 0) :
    GudoaiCore.get_current_commit_hash r = .ok (pyStrip r.stdout) := by
  simp [GudoaiCore.get_current_commit_hash, h]

theorem GudoaiCore.get_current_commit_hash_err {r : SubprocessResult}
    (h : ¬ r.returncode = 0) :
    GudoaiCore.get_current_commit_hash r =
      .error ("Failed to get commit hash: " ++ r.stderr) := by
  simp [GudoaiCore.get_current_commit_hash, h]

theorem GudoaiCore.get_tracked_files_ok {r : SubprocessResult}
    (h : r.returncode = 0) :
    GudoaiCore.get_tracked_files r =
      .ok (pySplit (pyStrip r.stdout) (Char.ofNat 10)) := by
  simp [GudoaiCore.get_tracked_files, h]

theorem GudoaiCore.get_tracked_files_err {r : SubprocessResult}
    (h : ¬ r.returncode = 0) :
    GudoaiCore.get_tracked_files r =
      .error ("Failed to get tracked files: " ++ r.stderr) := by
  simp [GudoaiCore.get_tracked_files, h]

theorem GudoaiCore.register_project_already {meta : ProjectMetadata}
    {project_name : String} {revParse : SubprocessResult} {db : Db}
    (hreg : meta.api_registered = true) :
    GudoaiCore.register_project meta project_name revParse db =
      { result := .error "Project already registered with the API."
        meta := meta, db := db, apiCalls := [], metaWritten := false } := by
  simp [GudoaiCore.register_project, hreg]

theorem GudoaiCore.register_project_git_err {meta : ProjectMetadata}
    {project_name : String} {revParse : SubprocessResult} {db : Db}
    (hreg : meta.api_registered = false) (hrc : ¬ revParse.returncode = 0) :
    GudoaiCore.register_project meta project_name revParse db =
      { result := .error ("Failed to get commit hash: " ++ revParse.stderr)
        meta := meta, db := db, apiCalls := [], metaWritten := false } := by
  simp [GudoaiCore.register_project, hreg, GudoaiCore.get_current_commit_hash_err hrc]

theorem GudoaiCore.register_project_201 {meta : ProjectMetadata}
    {project_name : String} {revParse : SubprocessResult} {db : Db}
    (hreg : meta.api_registered = false) (hrc : revParse.returncode = 0)
    (hst : (GudoaiApiClient.register_project db meta.project_id project_name
      (pyStrip revParse.stdout) meta.version meta.description).status = 201) :
    GudoaiCore.register_project meta project_name revParse db =
      { result := .ok ()
        meta := { meta with
          api_registered := true
          last_api_sync_commit_hash := some (pyStrip revParse.stdout)
          version := meta.version + 1 }
        db := (GudoaiApiClient.register_project db meta.project_id project_name
          (pyStrip revParse.stdout) meta.version meta.description).projects
        apiCalls := [RegistryCall.register meta.project_id project_name
          (pyStrip revParse.stdout) meta.version meta.description]
        metaWritten := true } := by
  simp [GudoaiCore.register_project, hreg, GudoaiCore.get_current_commit_hash_ok hrc, hst]

theorem GudoaiCore.register_project_ne201 {meta : ProjectMetadata}
    {project_name : String} {revParse : SubprocessResult} {db : Db}
    (hreg : meta.api_registered = false) (hrc : revParse.returncode = 0)
    (hst : ¬ (GudoaiApiClient.register_project db meta.project_id project_name
      (pyStrip revParse.stdout) meta.version meta.description).status = 201) :
    GudoaiCore.register_project meta project_name revParse db =
      { result := .ok ()
        meta := meta
        db := (GudoaiApiClient.register_project db meta.project_id project_name
          (pyStrip revParse.stdout) meta.version meta.description).projects
        apiCalls := [RegistryCall.register meta.project_id project_name
          (pyStrip revParse.stdout) meta.version meta.description]
        metaWritten := false } := by
  simp [GudoaiCore.register_project, hreg, GudoaiCore.get_current_commit_hash_ok hrc, hst]

theorem GudoaiCore.sync_project_not_registered {meta : ProjectMetadata}
    {revParse lsFiles : SubprocessResult} {db : Db}
    (hreg : meta.api_registered = false) :
    GudoaiCore.sync_project meta revParse lsFiles db =
      { result := .error "Project not registered with the API."
        meta := meta, db := db, apiCalls := [], metaWritten := false } := by
  simp [GudoaiCore.sync_project, hreg]

theorem GudoaiCore.sync_project_git_err {meta : ProjectMetadata}
    {revParse lsFiles : SubprocessResult} {db : Db}
    (hreg : meta.api_registered = true) (hrc : ¬ revParse.returncode = 0) :
    GudoaiCore.sync_project meta revParse lsFiles db =
      { result := .error ("Failed to get commit hash: " ++ revParse.stderr)
        meta := meta, db := db, apiCalls := [], metaWritten := false } := by
  simp [GudoaiCore.sync_project, hreg, GudoaiCore.get_current_commit_hash_err hrc]

theorem GudoaiCore.sync_project_ls_err {meta : ProjectMetadata}
    {revParse lsFiles : SubprocessResult} {db : Db}
    (hreg : meta.api_registered = true) (hrc : revParse.returncode = 0)
    (hls : ¬ lsFiles.returncode = 0) :
    GudoaiCore.sync_project meta revParse lsFiles db =
      { result := .error ("Failed to get tracked files: " ++ lsFiles.stderr)
        meta := meta, db := db, apiCalls := [], metaWritten := false } := by
  simp [GudoaiCore.sync_project, hreg, GudoaiCore.get_current_commit_hash_ok hrc,
    GudoaiCore.get_tracked_files_err hls]

theorem GudoaiCore.sync_project_200 {meta : ProjectMetadata}
    {revParse lsFiles : SubprocessResult} {db : Db}
    (hreg : meta.api_registered = true) (hrc : revParse.returncode = 0)
    (hls : lsFiles.returncode = 0)
    (hst : (GudoaiApiClient.sync_project db meta.project_id (pyStrip revParse.stdout)
      meta.version meta.description
      (pySplit (pyStrip lsFiles.stdout) (Char.ofNat 10))).status = 200) :
    GudoaiCore.sync_project meta revParse lsFiles db =
      { result := .ok ()
        meta := { meta with last_api_sync_commit_hash := some (pyStrip revParse.stdout) }
        db := (GudoaiApiClient.sync_project db meta.project_id (pyStrip revParse.stdout)
          meta.version meta.description
          (pySplit (pyStrip lsFiles.stdout) (Char.ofNat 10))).projects
        apiCalls := [RegistryCall.sync meta.project_id (pyStrip revParse.stdout)
          meta.version meta.description
          (pySplit (pyStrip lsFiles.stdout) (Char.ofNat 10))]
        metaWritten := true } := by
  simp [GudoaiCore.sync_project, hreg, GudoaiCore.get_current_commit_hash_ok hrc,
    GudoaiCore.get_tracked_files_ok hls, hst]

theorem GudoaiCore.sync_project_ne200 {meta : ProjectMetadata}
    {revParse lsFiles : SubprocessResult} {db : Db}
    (hreg : meta.api_registered = true) (hrc : revParse.returncode = 0)
    (hls : lsFiles.returncode = 0)
    (hst : ¬ (GudoaiApiClient.sync_project db meta.project_id (pyStrip revParse.stdout)
      meta.version meta.description
      (pySplit (pyStrip lsFiles.stdout) (Char.ofNat 10))).status = 200) :
    GudoaiCore.sync_project meta revParse lsFiles db =
      { result := .ok ()
        meta := meta
        db := (GudoaiApiClient.sync_project db meta.project_id (pyStrip revParse.stdout)
          meta.version meta.description
          (pySplit (pyStrip lsFiles.stdout) (Char.ofNat 10))).projects
        apiCalls := [RegistryCall.sync meta.project_id (pyStrip revParse.stdout)
          meta.version meta.description
          (pySplit (pyStrip lsFiles.stdout) (Char.ofNat 10))]
        metaWritten := false } := by
  simp [GudoaiCore.sync_project, hreg, GudoaiCore.get_current_commit_hash_ok hrc,
    GudoaiCore.get_tracked_files_ok hls, hst]

/-! Claims. -/

/-- C1: when the registry rejects a call (register_project receives a status
other than 201, sync_project a status other than 200), the orchestrator
leaves the local metadata record unchanged and performs no metadata write or
commit; conversely the metadata file is rewritten only when the remote call
succeeded. -/
theorem claim_C1 (meta : ProjectMetadata) (project_name : String)
    (revParse lsFiles : SubprocessResult) (db : Db) :
    ((GudoaiApiClient.register_project db meta.project_id project_name
        (pyStrip revParse.stdout) meta.version meta.description).status ≠ 201 →
      (GudoaiCore.register_project meta project_name revParse db).meta = meta ∧
      (GudoaiCore.register_project meta project_name revParse db).metaWritten = false) ∧
    ((GudoaiCore.register_project meta project_name revParse db).metaWritten = true →
      (GudoaiApiClient.register_project db meta.project_id project_name
        (pyStrip revParse.stdout) meta.version meta.description).status = 201) ∧
    ((GudoaiApiClient.sync_project db meta.project_id (pyStrip revParse.stdout)
        meta.version meta.description
        (pySplit (pyStrip lsFiles.stdout) (Char.ofNat 10))).status ≠ 200 →
      (GudoaiCore.sync_project meta revParse lsFiles db).meta = meta ∧
      (GudoaiCore.sync_project meta revParse lsFiles db).metaWritten = false) ∧
    ((GudoaiCore.sync_project meta revParse lsFiles db).metaWritten = true →
      (GudoaiApiClient.sync_project db meta.project_id (pyStrip revParse.stdout)
        meta.version meta.description
        (pySplit (pyStrip lsFiles.stdout) (Char.ofNat 10))).status = 200) := by
  refine ⟨?_, ?_, ?_, ?_⟩
  · intro hne
    by_cases hreg : meta.api_registered = true
    · simp [GudoaiCore.register_project_already hreg]
    · rw [Bool.not_eq_true] at hreg
      by_cases hrc : revParse.returncode = 0
      · simp [GudoaiCore.register_project_ne201 hreg hrc hne]
      · simp [GudoaiCore.register_project_git_err hreg hrc]
  · intro hw
    by_cases hst : (GudoaiApiClient.register_project db meta.project_id project_name
        (pyStrip revParse.stdout) meta.version meta.description).status = 201
    · exact hst
    · by_cases hreg : meta.api_registered = true
      · simp [GudoaiCore.register_project_already hreg] at hw
      · rw [Bool.not_eq_true] at hreg
        by_cases hrc : revParse.returncode = 0
        · simp [GudoaiCore.register_project_ne201 hreg hrc hst] at hw
        · simp [GudoaiCore.register_project_git_err hreg hrc] at hw
  · intro hne
    by_cases hreg : meta.api_registered = true
    · by_cases hrc : revParse.returncode = 0
      · by_cases hls : lsFiles.returncode = 0
        · simp [GudoaiCore.sync_project_ne200 hreg hrc hls hne]
        · simp [GudoaiCore.sync_project_ls_err hreg hrc hls]
      · simp [GudoaiCore.sync_project_git_err hreg hrc]
    · rw [Bool.not_eq_true] at hreg
      simp [GudoaiCore.sync_project_not_registered hreg]
  · intro hw
    by_cases hst : (GudoaiApiClient.sync_project db meta.project_id
        (pyStrip revParse.stdout) meta.version meta.description
        (pySplit (pyStrip lsFiles.stdout) (Char.ofNat 10))).status = 200
    · exact hst
    · by_cases hreg : meta.api_registered = true
      · by_cases hrc : revParse.returncode = 0
        · by_cases hls : lsFiles.returncode = 0
          · simp [GudoaiCore.sync_project_ne200 hreg hrc hls hst] at hw
          · simp [GudoaiCore.sync_project_ls_err hreg hrc hls] at hw
        · simp [GudoaiCore.sync_project_git_err hreg hrc] at hw
      · rw [Bool.not_eq_true] at hreg
        simp [GudoaiCore.sync_project_not_registered hreg] at hw

/-- Witness for C1 at concrete inputs: a registration rejected with 409
(project id already in the store) and a sync rejected with 400 (stale
version 3 against stored version 5) both leave the local metadata exactly as
it was, with no write. -/
theorem claim_C1_w :
    ((GudoaiCore.register_project sampleMeta "demo" sampleRevParse
        [("pid-1", sampleRecord)]).meta = sampleMeta ∧
      (GudoaiCore.register_project sampleMeta "demo" sampleRevParse
        [("pid-1", sampleRecord)]).metaWritten = false) ∧
    ((GudoaiCore.sync_project sampleMetaReg sampleRevParse sampleLsEmpty
        [("pid-1", sampleRecord)]).meta = sampleMetaReg ∧
      (GudoaiCore.sync_project sampleMetaReg sampleRevParse sampleLsEmpty
        [("pid-1", sampleRecord)]).metaWritten = false) :=
  ⟨(claim_C1 sampleMeta "demo" sampleRevParse sampleLsEmpty
      [("pid-1", sampleRecord)]).1 (by decide),
   (claim_C1 sampleMetaReg "demo" sampleRevParse sampleLsEmpty
      [("pid-1", sampleRecord)]).2.2.1 (by decide)⟩

/-- C2: for every project id present in the registry store, a sync call with
version less than or equal to the stored version returns status 400 and
leaves the store (hence the stored record) unmodified; for every id absent
from the store, sync returns status 404 and the store is unmodified. -/
theorem claim_C2 (projects : Db) (project_id commit_hash : String) (version : Int)
    (description : String) (file_manifest : List String) :
    (∀ record, Db.find projects project_id = some record →
      version ≤ record.version →
      GudoaiApiClient.sync_project projects project_id commit_hash version
          description file_manifest =
        { status := 400
          payload := .apiError "Stale data: metadata_version must be greater than current."
          projects := projects }) ∧
    (Db.find projects project_id = none →
      GudoaiApiClient.sync_project projects project_id commit_hash version
          description file_manifest =
        { status := 404
          payload := .apiError "Project not found"
          projects := projects }) := by
  constructor
  · intro record hfind hv
    simp [GudoaiApiClient.sync_project, hfind, hv]
  · intro hfind
    simp [GudoaiApiClient.sync_project, hfind]

/-- Witness for C2 at a concrete store: a stale sync (version 4 against
stored version 5) yields 400, and a sync against an empty store yields 404,
both leaving the store as it was. -/
theorem claim_C2_w :
    (GudoaiApiClient.sync_project [("pid-1", sampleRecord)] "pid-1" "h2" 4
        "new" [] =
      { status := 400
        payload := .apiError "Stale data: metadata_version must be greater than current."
        projects := [("pid-1", sampleRecord)] }) ∧
    (GudoaiApiClient.sync_project [] "pid-1" "h2" 4 "new" [] =
      { status := 404
        payload := .apiError "Project not found"
        projects := [] }) :=
  ⟨(claim_C2 [("pid-1", sampleRecord)] "pid-1" "h2" 4 "new" []).1 sampleRecord
      (by decide) (by decide),
   (claim_C2 [] "pid-1" "h2" 4 "new" []).2 (by decide)⟩

/-- C3: registering an id that is already present returns 409 and leaves the
store (hence the stored record for that id) unchanged; registering an absent
id returns 201 and inserts a record with empty file manifest, null
last_synced_commit, is_deployed false, and the given fields. -/
theorem claim_C3 (projects : Db) (project_id project_name commit_hash : String)
    (version : Int) (description : String) :
    (∀ record, Db.find projects project_id = some record →
      GudoaiApiClient.register_project projects project_id project_name
          commit_hash version description =
        { status := 409
          payload := .apiError "Project ID already registered"
          projects := projects } ∧
      Db.find (GudoaiApiClient.register_project projects project_id project_name
          commit_hash version description).projects project_id = some record) ∧
    (Db.find projects project_id = none →
      (GudoaiApiClient.register_project projects project_id project_name
          commit_hash version description).status = 201 ∧
      Db.find (GudoaiApiClient.register_project projects project_id project_name
          commit_hash version description).projects project_id =
        some { project_id := project_id
               project_name := project_name
               commit_hash := commit_hash
               version := version
               description := description
               file_manifest := []
               last_synced_commit := none
               is_deployed := false }) := by
  constructor
  · intro record hfind
    constructor
    · simp [GudoaiApiClient.register_project, hfind]
    · simp [GudoaiApiClient.register_project, hfind]
  · intro hfind
    constructor
    · simp [GudoaiApiClient.register_project, hfind]
    · simp only [GudoaiApiClient.register_project, hfind]
      exact Db.find_append projects project_id _ hfind

/-- Witness for C3 at concrete inputs: a second registration of pid-1 yields
409 with the record intact, and registration into an empty store yields 201
with the expected fresh record. -/
theorem claim_C3_w :
    (GudoaiApiClient.register_project [("pid-1", sampleRecord)] "pid-1" "demo"
        "abc123" 3 "a demo project" =
      { status := 409
        payload := .apiError "Project ID already registered"
        projects := [("pid-1", sampleRecord)] }) ∧
    ((GudoaiApiClient.register_project [] "pid-1" "demo" "abc123" 3
        "a demo project").status = 201 ∧
      Db.find (GudoaiApiClient.register_project [] "pid-1" "demo" "abc123" 3
          "a demo project").projects "pid-1" =
        some { project_id := "pid-1"
               project_name := "demo"
               commit_hash := "abc123"
               version := 3
               description := "a demo project"
               file_manifest := []
               last_synced_commit := none
               is_deployed := false }) :=
  ⟨((claim_C3 [("pid-1", sampleRecord)] "pid-1" "demo" "abc123" 3
      "a demo project").1 sampleRecord (by decide)).1,
   (claim_C3 [] "pid-1" "demo" "abc123" 3 "a demo project").2 (by decide)⟩

/-- C4: after a successful register_project (status 201), the local metadata
has api_registered true and last_api_sync_commit_hash equal to the commit
hash sent to the registry (the call recorded in apiCalls carries that same
hash); and when the metadata already has api_registered true,
register_project raises a state error and makes no registry call. -/
theorem claim_C4 (meta : ProjectMetadata) (project_name : String)
    (revParse : SubprocessResult) (db : Db) :
    (meta.api_registered = false → revParse.returncode = 0 →
      (GudoaiApiClient.register_project db meta.project_id project_name
        (pyStrip revParse.stdout) meta.version meta.description).status = 201 →
      (GudoaiCore.register_project meta project_name revParse db).meta.api_registered = true ∧
      (GudoaiCore.register_project meta project_name revParse db).meta.last_api_sync_commit_hash =
        some (pyStrip revParse.stdout) ∧
      (GudoaiCore.register_project meta project_name revParse db).apiCalls =
        [RegistryCall.register meta.project_id project_name (pyStrip revParse.stdout)
          meta.version meta.description]) ∧
    (meta.api_registered = true →
      (GudoaiCore.register_project meta project_name revParse db).result =
        .error "Project already registered with the API." ∧
      (GudoaiCore.register_project meta project_name revParse db).apiCalls = []) := by
  constructor
  · intro hreg hrc hst
    simp [GudoaiCore.register_project_201 hreg hrc hst]
  · intro hreg
    simp [GudoaiCore.register_project_already hreg]

/-- Witness for C4: a fresh registration against an empty store succeeds and
sets the local flags from the sent hash; a second registration attempt on
the already-registered metadata raises without any registry call. -/
theorem claim_C4_w :
    ((GudoaiCore.register_project sampleMeta "demo" sampleRevParse []).meta.api_registered = true ∧
      (GudoaiCore.register_project sampleMeta "demo" sampleRevParse
        []).meta.last_api_sync_commit_hash = some (pyStrip "abc123") ∧
      (GudoaiCore.register_project sampleMeta "demo" sampleRevParse []).apiCalls =
        [RegistryCall.register "pid-1" "demo" (pyStrip "abc123") 3 "a demo project"]) ∧
    ((GudoaiCore.register_project sampleMetaReg "demo" sampleRevParse []).result =
        .error "Project already registered with the API." ∧
      (GudoaiCore.register_project sampleMetaReg "demo" sampleRevParse []).apiCalls = []) :=
  ⟨(claim_C4 sampleMeta "demo" sampleRevParse []).1 (by decide) (by decide) (by decide),
   (claim_C4 sampleMetaReg "demo" sampleRevParse []).2 (by decide)⟩

/-- C5: after a successful register_project, the registry record holds the
pre-registration local version, the local version is then one greater, and
an immediately following sync sending the new local version passes the
staleness check (200) while sending the old version would be rejected (400). -/
theorem claim_C5 (meta : ProjectMetadata) (project_name : String)
    (revParse : SubprocessResult) (db : Db)
    (hreg : meta.api_registered = false) (hrc : revParse.returncode = 0)
    (hfind : Db.find db meta.project_id = none) :
    (GudoaiCore.register_project meta project_name revParse db).result = .ok () ∧
    Db.find (GudoaiCore.register_project meta project_name revParse db).db
        meta.project_id =
      some { project_id := meta.project_id
             project_name := project_name
             commit_hash := pyStrip revParse.stdout
             version := meta.version
             description := meta.description
             file_manifest := []
             last_synced_commit := none
             is_deployed := false } ∧
    (GudoaiCore.register_project meta project_name revParse db).meta.version =
      meta.version + 1 ∧
    (∀ commit_hash2 description2 file_manifest2,
      (GudoaiApiClient.sync_project
        (GudoaiCore.register_project meta project_name revParse db).db
        meta.project_id commit_hash2
        (GudoaiCore.register_project meta project_name revParse db).meta.version
        description2 file_manifest2).status = 200) ∧
    (∀ commit_hash2 description2 file_manifest2,
      (GudoaiApiClient.sync_project
        (GudoaiCore.register_project meta project_name revParse db).db
        meta.project_id commit_hash2 meta.version
        description2 file_manifest2).status = 400) := by
  have hst : (GudoaiApiClient.register_project db meta.project_id project_name
      (pyStrip revParse.stdout) meta.version meta.description).status = 201 := by
    simp [GudoaiApiClient.register_project, hfind]
  have hfind2 : Db.find (db ++ [(meta.project_id,
      { project_id := meta.project_id
        project_name := project_name
        commit_hash := pyStrip revParse.stdout
        version := meta.version
        description := meta.description
        file_manifest := []
        last_synced_commit := none
        is_deployed := false })]) meta.project_id =
      some { project_id := meta.project_id
             project_name := project_name
             commit_hash := pyStrip revParse.stdout
             version := meta.version
             description := meta.description
             file_manifest := []
             last_synced_commit := none
             is_deployed := false } :=
    Db.find_append db meta.project_id _ hfind
  have hdb : (GudoaiApiClient.register_project db meta.project_id project_name
      (pyStrip revParse.stdout) meta.version meta.description).projects =
      db ++ [(meta.project_id,
        { project_id := meta.project_id
          project_name := project_name
          commit_hash := pyStrip revParse.stdout
          version := meta.version
          description := meta.description
          file_manifest := []
          last_synced_commit := none
          is_deployed := false })] := by
    simp [GudoaiApiClient.register_project, hfind]
  rw [GudoaiCore.register_project_201 hreg hrc hst]
  have hv1 : ¬ (meta.version + 1 ≤ meta.version) := by omega
  refine ⟨rfl, ?_, rfl, ?_, ?_⟩
  · simp only [hdb]
    exact hfind2
  · intro commit_hash2 description2 file_manifest2
    simp only [hdb]
    simp [GudoaiApiClient.sync_project, hfind2, hv1]
  · intro commit_hash2 description2 file_manifest2
    simp only [hdb]
    simp [GudoaiApiClient.sync_project, hfind2]

/-- Witness for C5: registering the sample project (local version 3) against
an empty store gives a stored version 3 and local version 4; syncing with
version 4 yields 200, with version 3 yields 400. -/
theorem claim_C5_w :
    (GudoaiCore.register_project sampleMeta "demo" sampleRevParse []).result = .ok () ∧
    Db.find (GudoaiCore.register_project sampleMeta "demo" sampleRevParse []).db
        "pid-1" =
      some { project_id := "pid-1"
             project_name := "demo"
             commit_hash := "abc123"
             version := 3
             description := "a demo project"
             file_manifest := []
             last_synced_commit := none
             is_deployed := false } ∧
    (GudoaiCore.register_project sampleMeta "demo" sampleRevParse []).meta.version = 4 ∧
    (GudoaiApiClient.sync_project
      (GudoaiCore.register_project sampleMeta "demo" sampleRevParse []).db
      "pid-1" "def456"
      (GudoaiCore.register_project sampleMeta "demo" sampleRevParse []).meta.version
      "updated" [""]).status = 200 ∧
    (GudoaiApiClient.sync_project
      (GudoaiCore.register_project sampleMeta "demo" sampleRevParse []).db
      "pid-1" "def456" 3 "updated" [""]).status = 400 := by
  have h := claim_C5 sampleMeta "demo" sampleRevParse [] (by decide) (by decide) (by decide)
  exact ⟨h.1, h.2.1, h.2.2.1, h.2.2.2.1 "def456" "updated" [""],
    h.2.2.2.2 "def456" "updated" [""]⟩

/-- C6: for every id present in the store, a sync with version strictly
greater than the stored version returns 200, and a subsequent get_project_status
returns 200 with a record whose commit hash, version, description and file
manifest are the sync arguments and whose last_synced_commit is the commit
hash passed to sync. -/
theorem claim_C6 (projects : Db) (project_id commit_hash : String) (version : Int)
    (description : String) (file_manifest : List String) (record : RegistryRecord)
    (hfind : Db.find projects project_id = some record)
    (hv : record.version < version) :
    (GudoaiApiClient.sync_project projects project_id commit_hash version
        description file_manifest).status = 200 ∧
    GudoaiApiClient.get_project_status
        (GudoaiApiClient.sync_project projects project_id commit_hash version
          description file_manifest).projects project_id =
      (200, .statusRecord
        { record with
          commit_hash := commit_hash
          version := version
          description := description
          file_manifest := file_manifest
          last_synced_commit := some commit_hash }) := by
  have hnot : ¬ version ≤ record.version := not_le.mpr hv
  constructor
  · simp [GudoaiApiClient.sync_project, hfind, hnot]
  · simp only [GudoaiApiClient.sync_project, hfind, if_neg hnot,
      GudoaiApiClient.get_project_status]
    rw [Db.find_set projects project_id record _ hfind]

/-- Witness for C6 at a concrete store: syncing pid-1 from stored version 5
to version 6 yields 200 and get_project_status then shows the updated record. -/
theorem claim_C6_w :
    (GudoaiApiClient.sync_project [("pid-1", sampleRecord)] "pid-1" "def456" 6
        "updated" ["gudoai_meta.json", "a.txt"]).status = 200 ∧
    GudoaiApiClient.get_project_status
        (GudoaiApiClient.sync_project [("pid-1", sampleRecord)] "pid-1" "def456" 6
          "updated" ["gudoai_meta.json", "a.txt"]).projects "pid-1" =
      (200, .statusRecord
        { sampleRecord with
          commit_hash := "def456"
          version := 6
          description := "updated"
          file_manifest := ["gudoai_meta.json", "a.txt"]
          last_synced_commit := some "def456" }) :=
  claim_C6 [("pid-1", sampleRecord)] "pid-1" "def456" 6 "updated"
    ["gudoai_meta.json", "a.txt"] sampleRecord (by decide) (by decide)

/-- C7: update_metadata sets the description to the given text, increments
the version by exactly one (hence never decreases it), and leaves project_id,
last_api_sync_commit_hash and api_registered unchanged. -/
theorem claim_C7 (meta : ProjectMetadata) (new_description : String) :
    (GudoaiCore.update_metadata meta new_description).description = new_description ∧
    (GudoaiCore.update_metadata meta new_description).version = meta.version + 1 ∧
    meta.version < (GudoaiCore.update_metadata meta new_description).version ∧
    (GudoaiCore.update_metadata meta new_description).project_id = meta.project_id ∧
    (GudoaiCore.update_metadata meta new_description).last_api_sync_commit_hash =
      meta.last_api_sync_commit_hash ∧
    (GudoaiCore.update_metadata meta new_description).api_registered =
      meta.api_registered := by
  refine ⟨rfl, rfl, ?_, rfl, rfl, rfl⟩
  simp [GudoaiCore.update_metadata]

/-- C8: across the metadata-rewriting operations (update_metadata,
register_project, sync_project) the local version never decreases and is
strictly increased whenever an operation changes it, and api_registered is
monotonic: once true, no operation sets it back to false. -/
theorem claim_C8 (meta : ProjectMetadata) (new_description project_name : String)
    (revParse lsFiles : SubprocessResult) (db : Db) :
    meta.version < (GudoaiCore.update_metadata meta new_description).version ∧
    (meta.api_registered = true →
      (GudoaiCore.update_metadata meta new_description).api_registered = true) ∧
    meta.version ≤ (GudoaiCore.register_project meta project_name revParse db).meta.version ∧
    ((GudoaiCore.register_project meta project_name revParse db).meta.version ≠
        meta.version →
      meta.version <
        (GudoaiCore.register_project meta project_name revParse db).meta.version) ∧
    (meta.api_registered = true →
      (GudoaiCore.register_project meta project_name revParse db).meta.api_registered = true) ∧
    meta.version ≤ (GudoaiCore.sync_project meta revParse lsFiles db).meta.version ∧
    ((GudoaiCore.sync_project meta revParse lsFiles db).meta.version ≠ meta.version →
      meta.version < (GudoaiCore.sync_project meta revParse lsFiles db).meta.version) ∧
    (meta.api_registered = true →
      (GudoaiCore.sync_project meta revParse lsFiles db).meta.api_registered = true) := by
  have hrmeta : (GudoaiCore.register_project meta project_name revParse db).meta = meta ∨
      (GudoaiCore.register_project meta project_name revParse db).meta =
        { meta with
          api_registered := true
          last_api_sync_commit_hash := some (pyStrip revParse.stdout)
          version := meta.version + 1 } := by
    by_cases hreg : meta.api_registered = true
    · left
      rw [GudoaiCore.register_project_already hreg]
    · rw [Bool.not_eq_true] at hreg
      by_cases hrc : revParse.returncode = 0
      · by_cases hst : (GudoaiApiClient.register_project db meta.project_id project_name
            (pyStrip revParse.stdout) meta.version meta.description).status = 201
        · right
          rw [GudoaiCore.register_project_201 hreg hrc hst]
        · left
          rw [GudoaiCore.register_project_ne201 hreg hrc hst]
      · left
        rw [GudoaiCore.register_project_git_err hreg hrc]
  have hsmeta : (GudoaiCore.sync_project meta revParse lsFiles db).meta = meta ∨
      (GudoaiCore.sync_project meta revParse lsFiles db).meta =
        { meta with last_api_sync_commit_hash := some (pyStrip revParse.stdout) } := by
    by_cases hreg : meta.api_registered = true
    · by_cases hrc : revParse.returncode = 0
      · by_cases hls : lsFiles.returncode = 0
        · by_cases hst : (GudoaiApiClient.sync_project db meta.project_id
              (pyStrip revParse.stdout) meta.version meta.description
              (pySplit (pyStrip lsFiles.stdout) (Char.ofNat 10))).status = 200
          · right
            rw [GudoaiCore.sync_project_200 hreg hrc hls hst]
          · left
            rw [GudoaiCore.sync_project_ne200 hreg hrc hls hst]
        · left
          rw [GudoaiCore.sync_project_ls_err hreg hrc hls]
      · left
        rw [GudoaiCore.sync_project_git_err hreg hrc]
    · rw [Bool.not_eq_true] at hreg
      left
      rw [GudoaiCore.sync_project_not_registered hreg]
  have hrv : (GudoaiCore.register_project meta project_name revParse db).meta.version =
        meta.version ∨
      (GudoaiCore.register_project meta project_name revParse db).meta.version =
        meta.version + 1 := by
    rcases hrmeta with h | h
    · left
      rw [h]
    · right
      rw [h]
  have hra : meta.api_registered = true →
      (GudoaiCore.register_project meta project_name revParse db).meta.api_registered =
        true := by
    intro h
    rcases hrmeta with hm | hm
    · rw [hm]
      exact h
    · rw [hm]
  have hsv : (GudoaiCore.sync_project meta revParse lsFiles db).meta.version =
      meta.version := by
    rcases hsmeta with h | h <;> rw [h]
  have hsa : (GudoaiCore.sync_project meta revParse lsFiles db).meta.api_registered =
      meta.api_registered := by
    rcases hsmeta with h | h <;> rw [h]
  refine ⟨?_, ?_, ?_, ?_, hra, ?_, ?_, ?_⟩
  · show meta.version < meta.version + 1
    omega
  · intro h
    exact h
  · rcases hrv with h | h <;> omega
  · intro hne
    rcases hrv with h | h <;> omega
  · exact le_of_eq hsv.symm
  · intro hne
    rw [hsv] at hne
    exact absurd rfl hne
  · intro h
    rw [hsa]
    exact h

/-- Witness for C8: the sample metadata update bumps the version from 3 to
4, a successful registration bumps it from 3 to 4 and keeps api_registered
monotone, and a sync leaves the version at its old value while preserving
api_registered. -/
theorem claim_C8_w :
    sampleMeta.version < (GudoaiCore.update_metadata sampleMeta "x").version ∧
    (GudoaiCore.update_metadata sampleMetaReg "x").api_registered = true ∧
    sampleMeta.version ≤
      (GudoaiCore.register_project sampleMeta "demo" sampleRevParse []).meta.version ∧
    sampleMeta.version <
      (GudoaiCore.register_project sampleMeta "demo" sampleRevParse []).meta.version ∧
    (GudoaiCore.register_project sampleMetaReg "demo" sampleRevParse
      []).meta.api_registered = true ∧
    sampleMetaReg.version ≤
      (GudoaiCore.sync_project sampleMetaReg sampleRevParse sampleLsEmpty
        []).meta.version ∧
    (GudoaiCore.sync_project sampleMetaReg sampleRevParse sampleLsEmpty
      []).meta.api_registered = true := by
  have h1 := claim_C8 sampleMeta "x" "demo" sampleRevParse sampleLsEmpty []
  have h2 := claim_C8 sampleMetaReg "x" "demo" sampleRevParse sampleLsEmpty []
  exact ⟨h1.1, h2.2.1 (by decide), h1.2.2.1, h1.2.2.2.1 (by decide),
    h2.2.2.2.2.1 (by decide), h2.2.2.2.2.2.1, h2.2.2.2.2.2.2.2 (by decide)⟩

/-- C9: merge_to_main raises when the checkout of the main branch fails,
returns false without raising when the merge itself fails, and returns true
when the merge succeeds. -/
theorem claim_C9 (checkoutResult mergeResult : SubprocessResult) :
    (checkoutResult.returncode ≠ 0 →
      GudoaiCore.merge_to_main checkoutResult mergeResult =
        .error ("Failed to switch to main branch: " ++ checkoutResult.stderr)) ∧
    (checkoutResult.returncode = 0 → mergeResult.returncode ≠ 0 →
      GudoaiCore.merge_to_main checkoutResult mergeResult = .ok false) ∧
    (checkoutResult.returncode = 0 → mergeResult.returncode = 0 →
      GudoaiCore.merge_to_main checkoutResult mergeResult = .ok true) := by
  refine ⟨?_, ?_, ?_⟩
  · intro h
    simp [GudoaiCore.merge_to_main, h]
  · intro h1 h2
    simp [GudoaiCore.merge_to_main, h1, h2]
  · intro h1 h2
    simp [GudoaiCore.merge_to_main, h1, h2]

/-- Witness for C9 at concrete subprocess results: a failed checkout raises,
a failed merge returns false, a clean merge returns true. -/
theorem claim_C9_w :
    GudoaiCore.merge_to_main ⟨1, "", "checkout failed"⟩ ⟨0, "", ""⟩ =
      .error ("Failed to switch to main branch: " ++ "checkout failed") ∧
    GudoaiCore.merge_to_main ⟨0, "", ""⟩ ⟨1, "", "merge conflict"⟩ = .ok false ∧
    GudoaiCore.merge_to_main ⟨0, "", ""⟩ ⟨0, "", ""⟩ = .ok true :=
  ⟨(claim_C9 ⟨1, "", "checkout failed"⟩ ⟨0, "", ""⟩).1 (by decide),
   (claim_C9 ⟨0, "", ""⟩ ⟨1, "", "merge conflict"⟩).2.1 (by decide) (by decide),
   (claim_C9 ⟨0, "", ""⟩ ⟨0, "", ""⟩).2.2 (by decide) (by decide)⟩

/-- C10: when git ls-files succeeds with empty output, the tracked-files
operation returns the one-element list containing the empty string (the
stripped output split on newlines), never the empty list; and a sync_project
call then sends exactly that list as the file manifest of the registry call. -/
theorem claim_C10 (lsFiles : SubprocessResult) (meta : ProjectMetadata)
    (revParse : SubprocessResult) (db : Db)
    (hls : lsFiles.returncode = 0)
    (hempty : pyStrip lsFiles.stdout = "") :
    GudoaiCore.get_tracked_files lsFiles = .ok [""] ∧
    GudoaiCore.get_tracked_files lsFiles ≠ .ok ([] : List String) ∧
    (meta.api_registered = true → revParse.returncode = 0 →
      (GudoaiCore.sync_project meta revParse lsFiles db).apiCalls =
        [RegistryCall.sync meta.project_id (pyStrip revParse.stdout) meta.version
          meta.description [""]]) := by
  have hsplit : pySplit "" (Char.ofNat 10) = [""] := rfl
  have h1 : GudoaiCore.get_tracked_files lsFiles = .ok [""] := by
    simp [GudoaiCore.get_tracked_files, hls, hempty, hsplit]
  refine ⟨h1, by simp [h1], ?_⟩
  intro hreg hrc
  have h2 : GudoaiCore.get_current_commit_hash revParse = .ok (pyStrip revParse.stdout) := by
    simp [GudoaiCore.get_current_commit_hash, hrc]
  simp only [GudoaiCore.sync_project, hreg, h2, h1]
  rw [if_neg (by simp)]
  split <;> rfl

/-- Witness for C10: a successful ls-files with empty stdout yields the list
with one empty string, and a registered project syncing against an empty
store sends that list in its registry call. -/
theorem claim_C10_w :
    GudoaiCore.get_tracked_files sampleLsEmpty = .ok [""] ∧
    GudoaiCore.get_tracked_files sampleLsEmpty ≠ .ok ([] : List String) ∧
    (GudoaiCore.sync_project sampleMetaReg sampleRevParse sampleLsEmpty []).apiCalls =
      [RegistryCall.sync "pid-1" (pyStrip "abc123") 3 "a demo project" [""]] :=
  ⟨(claim_C10 sampleLsEmpty sampleMetaReg sampleRevParse [] (by decide) (by decide)).1,
   (claim_C10 sampleLsEmpty sampleMetaReg sampleRevParse [] (by decide) (by decide)).2.1,
   (claim_C10 sampleLsEmpty sampleMetaReg sampleRevParse [] (by decide) (by decide)).2.2
     (by decide) (by decide)⟩

end Gudoai
